import Mathlib

/-!
Verification of the fzy-tmux driver (src/main.rs).

The program is a small driver that spawns the `fzy` fuzzy picker inside a
new tmux pane and relays data between the driver's standard streams and the
picker through three named FIFOs (`in`, `out`, `ret`).  We embed the pure
logic (the `TMUX` variable filter, the pane shell command, the exit-code
parsing pipeline) directly, and the effectful body of `main` as a sequential
function over a `World` record that supplies the outcome of every external
operation (environment lookup, directory and FIFO creation, subprocess
spawn, stream copies, the bytes read from the `ret` FIFO).

Bytes are modelled as `Nat` (a comma is byte 44); machine integers are
modelled as `Int` with the explicit i32 range checks performed by Rust's
`str::parse::<i32>`.
-/

/-- Embedding of `filter_tmux`'s iterator search: Rust's
`bytes.iter().enumerate().find(..)` with a mutable `comma_count` that is
incremented at each comma and the predicate `comma_count == 2`.  Returns the
index of the element at which the running comma count first reaches two
(i.e. the index of the second comma), or `none`. -/
def findSecondComma : Nat → List Nat → Option Nat
  | _, [] => none
  | cnt, b :: rest =>
    let cnt' := if b = 44 then cnt + 1 else cnt
    if cnt' = 2 then some 0
    else Option.map (fun i => i + 1) (findSecondComma cnt' rest)

/-- Embedding of `filter_tmux`: truncate the byte string of the `TMUX`
variable at the second comma (`map_or(bytes.len(), ..)` followed by
`&bytes[..end]`). -/
def filter_tmux (bytes : List Nat) : List Nat :=
  bytes.take ((findSecondComma 0 bytes).getD bytes.length)

theorem findSecondComma_none_iff (l : List Nat) :
    ∀ cnt : Nat, cnt ≤ 1 →
      (findSecondComma cnt l = none ↔ cnt + l.count 44 < 2) := by
  induction l with
  | nil =>
    intro cnt h
    simp [findSecondComma]
    omega
  | cons b rest ih =>
    intro cnt h
    by_cases hb : b = 44
    · subst hb
      by_cases h2 : cnt + 1 = 2
      · simp [findSecondComma, h2, List.count_cons]
        omega
      · have hle : cnt + 1 ≤ 1 := by omega
        simp [findSecondComma, h2, List.count_cons, Option.map_eq_none',
          ih _ hle]
        omega
    · have h2 : ¬(cnt = 2) := by omega
      simp [findSecondComma, hb, h2, List.count_cons, Option.map_eq_none',
        ih _ h]

theorem findSecondComma_some_spec (l : List Nat) :
    ∀ cnt i : Nat, cnt ≤ 1 → findSecondComma cnt l = some i →
      i < l.length ∧ (l.take i).count 44 + cnt = 1 ∧ l[i]? = some 44 := by
  induction l with
  | nil => intro cnt i h hf; simp [findSecondComma] at hf
  | cons b rest ih =>
    intro cnt i h hf
    by_cases hb : b = 44
    · subst hb
      by_cases h2 : cnt + 1 = 2
      · simp [findSecondComma, h2] at hf
        subst hf
        refine ⟨by simp, ?_, by simp⟩
        simp
        omega
      · have hle : cnt + 1 ≤ 1 := by omega
        simp [findSecondComma, h2] at hf
        obtain ⟨j, hj, rfl⟩ := hf
        obtain ⟨hlen, hcount, hat⟩ := ih _ _ hle hj
        refine ⟨by simpa using hlen, ?_, by simpa using hat⟩
        simp [List.count_cons]
        omega
    · have h2 : ¬(cnt = 2) := by omega
      simp [findSecondComma, hb, h2] at hf
      obtain ⟨j, hj, rfl⟩ := hf
      obtain ⟨hlen, hcount, hat⟩ := ih _ _ h hj
      refine ⟨by simpa using hlen, ?_, by simpa using hat⟩
      simp [List.count_cons, hb]
      omega

theorem filter_tmux_eq_self (l : List Nat) (h : l.count 44 < 2) :
    filter_tmux l = l := by
  have hnone : findSecondComma 0 l = none := by
    rw [findSecondComma_none_iff l 0 (by omega)]
    omega
  simp [filter_tmux, hnone]

theorem filter_tmux_count_lt_two (l : List Nat) :
    (filter_tmux l).count 44 < 2 := by
  cases hf : findSecondComma 0 l with
  | none =>
    have := (findSecondComma_none_iff l 0 (by omega)).mp hf
    simpa [filter_tmux, hf] using by omega
  | some i =>
    obtain ⟨hlen, hcount, hat⟩ := findSecondComma_some_spec l 0 i (by omega) hf
    simp [filter_tmux, hf]
    omega

/-- C1: for every byte string given to `filter_tmux`, if it contains fewer
than two comma bytes it is returned unchanged; if it contains two or more
commas the result is exactly the prefix up to, but not including, the
second comma (the result is a prefix holding exactly one comma, and the
byte of the input right after the result is a comma — which pins the cut
at the second comma). -/
theorem filter_tmux_truncates_at_second_comma (bytes : List Nat) :
    (bytes.count 44 < 2 → filter_tmux bytes = bytes) ∧
    (2 ≤ bytes.count 44 →
      filter_tmux bytes <+: bytes ∧
      (filter_tmux bytes).count 44 = 1 ∧
      bytes[(filter_tmux bytes).length]? = some 44) := by
  constructor
  · exact filter_tmux_eq_self bytes
  · intro h2
    cases hf : findSecondComma 0 bytes with
    | none =>
      have := (findSecondComma_none_iff bytes 0 (by omega)).mp hf
      omega
    | some i =>
      obtain ⟨hlen, hcount, hat⟩ :=
        findSecondComma_some_spec bytes 0 i (by omega) hf
      have hres : filter_tmux bytes = bytes.take i := by
        simp [filter_tmux, hf]
      have hreslen : (filter_tmux bytes).length = i := by
        rw [hres, List.length_take]
        omega
      refine ⟨?_, ?_, ?_⟩
      · exact hres ▸ ⟨bytes.drop i, List.take_append_drop i bytes⟩
      · rw [hres]; omega
      · rw [hreslen]; exact hat

/-- Witness for C1: both branches at concrete inputs.  The byte string
"a,b" (one comma) passes through unchanged; "a,b,c" (two commas) is cut to
"a,b", a prefix with one comma followed in the input by the second comma. -/
theorem filter_tmux_truncates_at_second_comma_witness :
    (([97, 44, 98] : List Nat).count 44 < 2 ∧
      filter_tmux [97, 44, 98] = [97, 44, 98]) ∧
    (2 ≤ ([97, 44, 98, 44, 99] : List Nat).count 44 ∧
      (filter_tmux [97, 44, 98, 44, 99] <+: [97, 44, 98, 44, 99] ∧
        (filter_tmux [97, 44, 98, 44, 99]).count 44 = 1 ∧
        ([97, 44, 98, 44, 99] :
            List Nat)[(filter_tmux [97, 44, 98, 44, 99]).length]? = some 44)) :=
  ⟨⟨by decide,
      (filter_tmux_truncates_at_second_comma [97, 44, 98]).1 (by decide)⟩,
    ⟨by decide,
      (filter_tmux_truncates_at_second_comma [97, 44, 98, 44, 99]).2
        (by decide)⟩⟩

/-- C9: `filter_tmux` is idempotent — applying it to its own output is a
no-op — and its output never retains two or more commas. -/
theorem filter_tmux_idempotent (bytes : List Nat) :
    filter_tmux (filter_tmux bytes) = filter_tmux bytes ∧
    (filter_tmux bytes).count 44 < 2 :=
  ⟨filter_tmux_eq_self _ (filter_tmux_count_lt_two bytes),
    filter_tmux_count_lt_two bytes⟩

/-- C10: `filter_tmux` is total on every byte string (the definition is a
total function over arbitrary byte lists, valid UTF-8 or not, empty or
not), its slice index never exceeds the length of the input (so the Rust
slice `&bytes[..end]` cannot panic), and its output is a byte-for-byte
prefix of its input. -/
theorem filter_tmux_total_index_in_bounds_and_output_is_a_prefix_of_input
    (bytes : List Nat) :
    (findSecondComma 0 bytes).getD bytes.length ≤ bytes.length ∧
    filter_tmux bytes <+: bytes := by
  have hle : (findSecondComma 0 bytes).getD bytes.length ≤ bytes.length := by
    cases hf : findSecondComma 0 bytes with
    | none => simp
    | some i =>
      obtain ⟨hlen, -, -⟩ := findSecondComma_some_spec bytes 0 i (by omega) hf
      simpa using hlen.le
  exact ⟨hle, ⟨bytes.drop _, List.take_append_drop _ bytes⟩⟩

/-- Whether a byte is a UTF-8 continuation byte (`0x80..=0xBF`). -/
def utf8Cont (b : Nat) : Bool := 128 ≤ b && b ≤ 191

/-- Embedding of the validation performed by Rust's `str::from_utf8`,
as a decoder from bytes to Unicode scalar values: ASCII passes through;
2-byte sequences need a lead in `0xC2..=0xDF`; 3- and 4-byte sequences
carry the usual restricted ranges on the first continuation byte (ruling
out overlong forms, surrogates and values above U+10FFFF).  Returns `none`
exactly when the byte string is not valid UTF-8. -/
def utf8Decode : List Nat → Option (List Nat)
  | [] => some []
  | b0 :: rest =>
    if b0 < 128 then
      Option.map (fun cs => b0 :: cs) (utf8Decode rest)
    else if 194 ≤ b0 ∧ b0 ≤ 223 then
      match rest with
      | b1 :: rest2 =>
        if utf8Cont b1 then
          Option.map (fun cs => ((b0 - 192) * 64 + (b1 - 128)) :: cs)
            (utf8Decode rest2)
        else none
      | [] => none
    else if 224 ≤ b0 ∧ b0 ≤ 239 then
      match rest with
      | b1 :: b2 :: rest2 =>
        let lo1 : Nat := if b0 = 224 then 160 else 128
        let hi1 : Nat := if b0 = 237 then 159 else 191
        if (lo1 ≤ b1 ∧ b1 ≤ hi1) ∧ utf8Cont b2 then
          Option.map
            (fun cs => ((b0 - 224) * 4096 + (b1 - 128) * 64 + (b2 - 128)) :: cs)
            (utf8Decode rest2)
        else none
      | _ => none
    else if 240 ≤ b0 ∧ b0 ≤ 244 then
      match rest with
      | b1 :: b2 :: b3 :: rest2 =>
        let lo1 : Nat := if b0 = 240 then 144 else 128
        let hi1 : Nat := if b0 = 244 then 143 else 191
        if (lo1 ≤ b1 ∧ b1 ≤ hi1) ∧ utf8Cont b2 ∧ utf8Cont b3 then
          Option.map
            (fun cs =>
              ((b0 - 240) * 262144 + (b1 - 128) * 4096 + (b2 - 128) * 64 +
                  (b3 - 128)) :: cs)
            (utf8Decode rest2)
        else none
      | _ => none
    else none

/-- The Unicode `White_Space` property, which is what Rust's
`char::is_whitespace` checks. -/
def rustIsWhitespace (c : Nat) : Bool :=
  c == 9 || c == 10 || c == 11 || c == 12 || c == 13 || c == 32 ||
  c == 133 || c == 160 || c == 5760 ||
  (8192 ≤ c && c ≤ 8202) || c == 8232 || c == 8233 || c == 8239 ||
  c == 8287 || c == 12288

/-- Embedding of Rust's `str::trim_end`: remove the longest suffix of
whitespace characters. -/
def trimEnd (cs : List Nat) : List Nat :=
  (cs.reverse.dropWhile rustIsWhitespace).reverse

/-- Accumulate decimal digits; `none` as soon as a non-ASCII-digit
character is met. -/
def parseDigitsAux : List Nat → Nat → Option Nat
  | [], acc => some acc
  | c :: rest, acc =>
    if 48 ≤ c ∧ c ≤ 57 then parseDigitsAux rest (acc * 10 + (c - 48))
    else none

/-- Strip an optional leading sign character (`+` is 43, `-` is 45),
returning whether the number is negative and the remaining characters. -/
def parseSign : List Nat → Bool × List Nat
  | 43 :: rest => (false, rest)
  | 45 :: rest => (true, rest)
  | cs => (false, cs)

/-- Embedding of Rust's `str::parse::<i32>`: an optional sign followed by
one or more ASCII decimal digits, the value required to fit in a 32-bit
signed integer (Rust's checked accumulation fails exactly when the final
magnitude leaves the representable range). -/
def parseI32 (cs : List Nat) : Option Int :=
  match parseSign cs with
  | (_, []) => none
  | (neg, d :: ds) =>
    match parseDigitsAux (d :: ds) 0 with
    | none => none
    | some n =>
      if neg then
        if n ≤ 2147483648 then some (-(n : Int)) else none
      else
        if n ≤ 2147483647 then some ((n : Int)) else none

theorem parseI32_range (cs : List Nat) (n : Int) (h : parseI32 cs = some n) :
    -2147483648 ≤ n ∧ n ≤ 2147483647 := by
  unfold parseI32 at h
  split at h
  · exact absurd h (by simp)
  · split at h
    · exact absurd h (by simp)
    · split at h
      · split at h
        · cases h
          constructor <;> omega
        · exact absurd h (by simp)
      · split at h
        · cases h
          constructor <;> omega
        · exact absurd h (by simp)

/-- How the driver process ends.  `exitCode n` models `exit(rc)`;
`failure msg` models `main` returning `Err` with the given outermost
`context` message (the Rust runtime then reports it and exits with the
generic status 1); `returnedOk` models `main` returning `Ok(())` — the
source never reaches it because `exit(rc)` is the terminal statement. -/
inductive Outcome where
  | exitCode (code : Int)
  | failure (msg : String)
  | returnedOk
deriving DecidableEq

/-- The tail of `main`: read the `ret` FIFO to the end, decode the bytes
as UTF-8 (`str::from_utf8`), trim trailing whitespace, parse as `i32` and
exit with the parsed code. -/
def retrieveExitStatus (bytes : List Nat) : Outcome :=
  match utf8Decode bytes with
  | none => Outcome.failure "failed to parse reported exit code: invalid string"
  | some cs =>
    match parseI32 (trimEnd cs) with
    | none => Outcome.failure "failed to parse reported exit code"
    | some n => Outcome.exitCode n

/-- The process exit status produced by each outcome: `exit(rc)` uses the
parsed code; an `Err` from `main` makes the Rust runtime exit with the
generic status 1; `Ok(())` would exit with 0. -/
def mainExitCode (r : Outcome) : Int :=
  match r with
  | Outcome.exitCode n => n
  | Outcome.failure _ => 1
  | Outcome.returnedOk => 0

/-- Embedding of the `format!` building the in-pane shell command. -/
def fzyCommand (fifoIn fifoOut fifoRet : String) : String :=
  "fzy --lines 50 $* < '" ++ fifoIn ++ "' > '" ++ fifoOut ++
    "' 2>&1 && echo 0 > '" ++ fifoRet ++ "' || echo 1 > '" ++ fifoRet ++ "'"

/-- The configuration of the `tmux` subprocess built by `Command::new`:
program, whether `env_clear` was applied, the explicit environment, the
three standard streams (`true` means `Stdio::null()`), and the argument
list. -/
structure TmuxInvocation where
  program : String
  envCleared : Bool
  env : List (String × List Nat)
  stdinNull : Bool
  stdoutNull : Bool
  stderrNull : Bool
  args : List String
deriving DecidableEq

/-- Embedding of the `Command` builder chain in `main`: cleared
environment, only `TMUX` set (to the filtered token), all three standard
streams null, pane options followed by the split-window request. -/
def tmuxInvocation (token : List Nat) (cmd : String) : TmuxInvocation :=
  { program := "tmux"
    envCleared := true
    env := [("TMUX", token)]
    stdinNull := true
    stdoutNull := true
    stderrNull := true
    args := ["set-window-option", "synchronize-panes", "off", ";",
             "set-window-option", "remain-on-exit", "off", ";",
             "split-window", cmd] }

/-- The invocation `main` issues for a given temporary directory and raw
`TMUX` value. -/
def paneInvocation (tmpDir : String) (raw : List Nat) : TmuxInvocation :=
  tmuxInvocation (filter_tmux raw)
    (fzyCommand (tmpDir ++ "/in") (tmpDir ++ "/out") (tmpDir ++ "/ret"))

/-- Externally visible actions of the driver, in program order. -/
inductive Effect where
  | createTmpDir
  | createFifo (path : String)
  | spawnTmux (inv : TmuxInvocation)
  | openFifoIn
  | openFifoOut
  | copyOut
  | openFifoRet
  | readRet
deriving DecidableEq

/-- The outcomes of every external operation `main` performs, supplied as
data so the sequential control flow can be run as a pure function: the
`TMUX` variable (bytes, or absent), the positional command-line arguments,
the temporary-directory path and whether its creation succeeds, per-FIFO
`mkfifo` success, `tmux` spawn success, FIFO open successes, the result of
the background stdin copy (`some msg` is an I/O error with that message),
the foreground out copy and `ret` read successes, and the bytes read from
the `ret` FIFO. -/
structure World where
  args : List String
  tmuxVar : Option (List Nat)
  tmpDir : String
  tmpDirOk : Bool
  fifoInOk : Bool
  fifoOutOk : Bool
  fifoRetOk : Bool
  spawnOk : Bool
  openInOk : Bool
  stdinCopyErr : Option String
  openOutOk : Bool
  outCopyOk : Bool
  openRetOk : Bool
  retReadOk : Bool
  retBytes : List Nat
deriving DecidableEq

/-- What a run of the driver produced: how it ended, the diagnostic lines
written to standard error by the background copy thread, and the external
actions carried out (successful ones only, in order). -/
structure DriverResult where
  outcome : Outcome
  stderrLog : List String
  effects : List Effect
deriving DecidableEq

/-- Embedding of `main`: each step happens in source order, a `?`-failure
with its `context` message stops the run, the background thread's copy
error is only logged, and the terminal step hands the `ret` bytes to the
exit-status pipeline. -/
def driver (w : World) : DriverResult :=
  match w.tmuxVar with
  | none => ⟨Outcome.failure "TMUX variable not found", [], []⟩
  | some raw =>
    let tmux := filter_tmux raw
    if w.tmpDirOk then
      let fifoIn := w.tmpDir ++ "/in"
      let fifoOut := w.tmpDir ++ "/out"
      let fifoRet := w.tmpDir ++ "/ret"
      if w.fifoInOk then
        if w.fifoOutOk then
          if w.fifoRetOk then
            let fzy := fzyCommand fifoIn fifoOut fifoRet
            let effs := [Effect.createTmpDir, Effect.createFifo fifoIn,
                         Effect.createFifo fifoOut, Effect.createFifo fifoRet]
            if w.spawnOk then
              let effs := effs ++ [Effect.spawnTmux (tmuxInvocation tmux fzy)]
              if w.openInOk then
                let log :=
                  match w.stdinCopyErr with
                  | some e => ["failed to pipe standard input: " ++ e]
                  | none => []
                let effs := effs ++ [Effect.openFifoIn]
                if w.openOutOk then
                  let effs := effs ++ [Effect.openFifoOut]
                  if w.outCopyOk then
                    let effs := effs ++ [Effect.copyOut]
                    if w.openRetOk then
                      let effs := effs ++ [Effect.openFifoRet]
                      if w.retReadOk then
                        ⟨retrieveExitStatus w.retBytes, log,
                          effs ++ [Effect.readRet]⟩
                      else
                        ⟨Outcome.failure "failed to read from exit code FIFO",
                          log, effs⟩
                    else
                      ⟨Outcome.failure "failed to open exit code FIFO", log,
                        effs⟩
                  else
                    ⟨Outcome.failure "failed to copy standard output", log,
                      effs⟩
                else ⟨Outcome.failure "failed to open stdout FIFO", log, effs⟩
              else ⟨Outcome.failure "failed to open stdin FIFO", [], effs⟩
            else
              ⟨Outcome.failure "failed to execute `tmux` command", [], effs⟩
          else
            ⟨Outcome.failure ("failed to create FIFO `" ++ w.tmpDir ++ "/ret`"),
              [], [Effect.createTmpDir, Effect.createFifo fifoIn,
                Effect.createFifo fifoOut]⟩
        else
          ⟨Outcome.failure ("failed to create FIFO `" ++ w.tmpDir ++ "/out`"),
            [], [Effect.createTmpDir, Effect.createFifo fifoIn]⟩
      else
        ⟨Outcome.failure ("failed to create FIFO `" ++ w.tmpDir ++ "/in`"),
          [], [Effect.createTmpDir]⟩
    else ⟨Outcome.failure "failed to create temporary directory", [], []⟩

/-- A run in which every external operation succeeds, the `TMUX` variable
holds the bytes of "hi" and the `ret` FIFO yields the bytes of "0\n". -/
def testWorld : World :=
  { args := []
    tmuxVar := some [104, 105]
    tmpDir := "/t"
    tmpDirOk := true
    fifoInOk := true
    fifoOutOk := true
    fifoRetOk := true
    spawnOk := true
    openInOk := true
    stdinCopyErr := none
    openOutOk := true
    outCopyOk := true
    openRetOk := true
    retReadOk := true
    retBytes := [48, 10] }

/-- C2: when the `ret` pipe's contents decode as valid text and, after
trimming trailing whitespace, parse as a base-10 signed integer, the driver
terminates with exactly that integer as its process exit code, and this is
the terminal step — the run does not end in a normal return (`main` never
reaches `Ok(())` because `exit(rc)` is the last statement). -/
theorem driver_propagates_parsed_exit_code
    (w : World) (raw cs : List Nat) (n : Int)
    (h1 : w.tmuxVar = some raw) (h2 : w.tmpDirOk = true)
    (h3 : w.fifoInOk = true) (h4 : w.fifoOutOk = true)
    (h5 : w.fifoRetOk = true) (h6 : w.spawnOk = true)
    (h7 : w.openInOk = true) (h8 : w.openOutOk = true)
    (h9 : w.outCopyOk = true) (h10 : w.openRetOk = true)
    (h11 : w.retReadOk = true)
    (hdec : utf8Decode w.retBytes = some cs)
    (hparse : parseI32 (trimEnd cs) = some n) :
    (driver w).outcome = Outcome.exitCode n ∧
    mainExitCode (driver w).outcome = n ∧
    (driver w).outcome ≠ Outcome.returnedOk := by
  have hout : (driver w).outcome = retrieveExitStatus w.retBytes := by
    simp [driver, h1, h2, h3, h4, h5, h6, h7, h8, h9, h10, h11]
  have hret : retrieveExitStatus w.retBytes = Outcome.exitCode n := by
    simp [retrieveExitStatus, hdec, hparse]
  rw [hout, hret]
  exact ⟨rfl, rfl, by simp⟩

/-- Witness for C2: in a run where everything succeeds and the `ret` FIFO
yields the bytes of "0\n", the driver exits with code 0. -/
theorem driver_propagates_parsed_exit_code_witness :
    (driver testWorld).outcome = Outcome.exitCode 0 ∧
    mainExitCode (driver testWorld).outcome = 0 ∧
    (driver testWorld).outcome ≠ Outcome.returnedOk :=
  driver_propagates_parsed_exit_code testWorld [104, 105] [48, 10] 0
    rfl rfl rfl rfl rfl rfl rfl rfl rfl rfl rfl (by decide) (by decide)

/-- Counterexample to C3 as stated: the `ret` value is not restricted to
non-negative integers.  The bytes of "-3" are valid text, parse under
`str::parse::<i32>` as the negative integer -3, and the driver accepts
them and terminates with exit code -3 instead of raising an error. -/
theorem exit_status_negative_value_accepted :
    (driver { testWorld with retBytes := [45, 51] }).outcome =
      Outcome.exitCode (-3) ∧
    mainExitCode
        (driver { testWorld with retBytes := [45, 51] }).outcome = -3 ∧
    (-3 : Int) < 0 := by
  refine ⟨by decide, by decide, by decide⟩

/-- C3 (amended): the value read from the `ret` pipe is accepted only as a
single base-10 signed integer (an `i32`, so within the 32-bit signed
range) decoded from the trimmed textual contents of the pipe; content that
is not valid UTF-8 fails with the invalid-encoding error, content that
does not parse as an integer fails with the invalid-value error, and in
both cases the driver ends with the generic failure status 1 rather than a
propagated picker code. -/
theorem exit_status_validation_errors
    (w : World) (raw : List Nat)
    (h1 : w.tmuxVar = some raw) (h2 : w.tmpDirOk = true)
    (h3 : w.fifoInOk = true) (h4 : w.fifoOutOk = true)
    (h5 : w.fifoRetOk = true) (h6 : w.spawnOk = true)
    (h7 : w.openInOk = true) (h8 : w.openOutOk = true)
    (h9 : w.outCopyOk = true) (h10 : w.openRetOk = true)
    (h11 : w.retReadOk = true) :
    (utf8Decode w.retBytes = none →
      (driver w).outcome =
        Outcome.failure "failed to parse reported exit code: invalid string" ∧
      mainExitCode (driver w).outcome = 1) ∧
    (∀ cs, utf8Decode w.retBytes = some cs → parseI32 (trimEnd cs) = none →
      (driver w).outcome =
        Outcome.failure "failed to parse reported exit code" ∧
      mainExitCode (driver w).outcome = 1) ∧
    (∀ n, (driver w).outcome = Outcome.exitCode n →
      ∃ cs, utf8Decode w.retBytes = some cs ∧
        parseI32 (trimEnd cs) = some n ∧
        -2147483648 ≤ n ∧ n ≤ 2147483647) := by
  have hout : (driver w).outcome = retrieveExitStatus w.retBytes := by
    simp [driver, h1, h2, h3, h4, h5, h6, h7, h8, h9, h10, h11]
  rw [hout]
  refine ⟨?_, ?_, ?_⟩
  · intro hdec
    simp [retrieveExitStatus, hdec, mainExitCode]
  · intro cs hdec hparse
    simp [retrieveExitStatus, hdec, hparse, mainExitCode]
  · intro n hn
    unfold retrieveExitStatus at hn
    split at hn
    · exact absurd hn (by simp)
    · rename_i cs hdec
      split at hn
      · exact absurd hn (by simp)
      · rename_i m hparse
        obtain rfl : m = n := by simpa using hn
        obtain ⟨hlo, hhi⟩ := parseI32_range _ _ hparse
        exact ⟨cs, hdec, hparse, hlo, hhi⟩

/-- Witness for C3 (amended): invalid UTF-8 bytes (0xFF) produce the
invalid-encoding failure, and the text "abc" produces the invalid-value
failure, both with generic status 1. -/
theorem exit_status_validation_errors_witness :
    ((driver { testWorld with retBytes := [255] }).outcome =
        Outcome.failure "failed to parse reported exit code: invalid string" ∧
      mainExitCode
          (driver { testWorld with retBytes := [255] }).outcome = 1) ∧
    ((driver { testWorld with retBytes := [97, 98, 99] }).outcome =
        Outcome.failure "failed to parse reported exit code" ∧
      mainExitCode
          (driver { testWorld with retBytes := [97, 98, 99] }).outcome = 1) :=
  ⟨(exit_status_validation_errors { testWorld with retBytes := [255] }
        [104, 105] rfl rfl rfl rfl rfl rfl rfl rfl rfl rfl rfl).1 (by decide),
    (exit_status_validation_errors { testWorld with retBytes := [97, 98, 99] }
        [104, 105] rfl rfl rfl rfl rfl rfl rfl rfl rfl rfl rfl).2.1
      [97, 98, 99] (by decide) (by decide)⟩

/-- C4: an I/O error in the background stdin-forwarding copy is recovered
locally — its message is only written to the diagnostic stream and, when
the remaining steps succeed, the driver still reaches the `out` copy and
exit-status retrieval; an I/O error in the foreground `out` copy is fatal
and aborts the driver before the `ret` FIFO is ever opened or read. -/
theorem relay_error_handling (w : World) (raw : List Nat)
    (h1 : w.tmuxVar = some raw) (h2 : w.tmpDirOk = true)
    (h3 : w.fifoInOk = true) (h4 : w.fifoOutOk = true)
    (h5 : w.fifoRetOk = true) (h6 : w.spawnOk = true)
    (h7 : w.openInOk = true) (h8 : w.openOutOk = true) :
    (w.outCopyOk = false →
      (driver w).outcome = Outcome.failure "failed to copy standard output" ∧
      Effect.openFifoRet ∉ (driver w).effects ∧
      Effect.readRet ∉ (driver w).effects) ∧
    (∀ e, w.stdinCopyErr = some e →
      ("failed to pipe standard input: " ++ e) ∈ (driver w).stderrLog ∧
      (w.outCopyOk = true → w.openRetOk = true → w.retReadOk = true →
        (driver w).outcome = retrieveExitStatus w.retBytes ∧
        Effect.copyOut ∈ (driver w).effects ∧
        Effect.readRet ∈ (driver w).effects)) := by
  constructor
  · intro hout
    simp [driver, h1, h2, h3, h4, h5, h6, h7, h8, hout]
  · intro e he
    constructor
    · simp only [driver, h1, h2, h3, h4, h5, h6, h7, h8, he, if_true]
      rcases h9 : w.outCopyOk with - | -
      · rcases h10 : w.openRetOk with - | - <;>
          rcases h11 : w.retReadOk with - | - <;> simp
      · rcases h10 : w.openRetOk with - | - <;>
          rcases h11 : w.retReadOk with - | - <;> simp
    · intro h9 h10 h11
      simp [driver, h1, h2, h3, h4, h5, h6, h7, h8, h9, h10, h11, he]

/-- Witness for C4: with a failing out copy and a failing stdin copy, the
driver aborts with the output-copy failure without reading the `ret` FIFO,
while the stdin error only lands in the diagnostic log; with everything
else succeeding, a stdin-copy error alone still lets the driver reach the
exit status. -/
theorem relay_error_handling_witness :
    ((driver { testWorld with outCopyOk := false }).outcome =
        Outcome.failure "failed to copy standard output" ∧
      Effect.readRet ∉
        (driver { testWorld with outCopyOk := false }).effects) ∧
    (("failed to pipe standard input: boom") ∈
        (driver { testWorld with stdinCopyErr := some "boom" }).stderrLog ∧
      (driver { testWorld with stdinCopyErr := some "boom" }).outcome =
        retrieveExitStatus [48, 10]) :=
  ⟨⟨((relay_error_handling { testWorld with outCopyOk := false } [104, 105]
          rfl rfl rfl rfl rfl rfl rfl rfl).1 rfl).1,
      ((relay_error_handling { testWorld with outCopyOk := false } [104, 105]
          rfl rfl rfl rfl rfl rfl rfl rfl).1 rfl).2.2⟩,
    ⟨((relay_error_handling { testWorld with stdinCopyErr := some "boom" }
          [104, 105] rfl rfl rfl rfl rfl rfl rfl rfl).2 "boom" rfl).1,
      (((relay_error_handling { testWorld with stdinCopyErr := some "boom" }
          [104, 105] rfl rfl rfl rfl rfl rfl rfl rfl).2 "boom" rfl).2
        rfl rfl rfl).1⟩⟩

/-- C5: the constructed in-pane shell command invokes the picker with the
fixed display-line-count option `--lines 50`, redirects the picker's
standard input from the `in` path, redirects its combined standard output
and standard error (`2>&1`) to the `out` path, interpolates all three
paths between single quotes, and holds the shell conditional that writes
the literal marker `0` to the `ret` path on success and otherwise the
literal marker `1` — shown by the exact character-level decomposition of
the command and by the presence of each fragment. -/
theorem fzy_command_structure (fifoIn fifoOut fifoRet : String) :
    (fzyCommand fifoIn fifoOut fifoRet).data =
      "fzy --lines 50 $* < '".data ++ fifoIn.data ++ "' > '".data ++
        fifoOut.data ++ "' 2>&1 && echo 0 > '".data ++ fifoRet.data ++
        "' || echo 1 > '".data ++ fifoRet.data ++ "'".data ∧
    "fzy --lines 50".data <+: (fzyCommand fifoIn fifoOut fifoRet).data ∧
    ("< '".data ++ fifoIn.data ++ "'".data) <:+:
      (fzyCommand fifoIn fifoOut fifoRet).data ∧
    ("> '".data ++ fifoOut.data ++ "' 2>&1".data) <:+:
      (fzyCommand fifoIn fifoOut fifoRet).data ∧
    ("&& echo 0 > '".data ++ fifoRet.data ++ "'".data) <:+:
      (fzyCommand fifoIn fifoOut fifoRet).data ∧
    ("|| echo 1 > '".data ++ fifoRet.data ++ "'".data) <:+:
      (fzyCommand fifoIn fifoOut fifoRet).data := by
  have m1 : ∀ x : List Char,
      "fzy --lines 50".data ++ (" $* ".data ++ ("< '".data ++ x)) =
        "fzy --lines 50 $* < '".data ++ x := by
    intro x
    rw [← List.append_assoc, ← List.append_assoc]
    rfl
  have m2 : ∀ x : List Char,
      "'".data ++ (" ".data ++ ("> '".data ++ x)) = "' > '".data ++ x := by
    intro x
    rw [← List.append_assoc, ← List.append_assoc]
    rfl
  have m3 : ∀ x : List Char,
      "' 2>&1".data ++ (" ".data ++ ("&& echo 0 > '".data ++ x)) =
        "' 2>&1 && echo 0 > '".data ++ x := by
    intro x
    rw [← List.append_assoc, ← List.append_assoc]
    rfl
  have m4 : ∀ x : List Char,
      "'".data ++ (" ".data ++ ("|| echo 1 > '".data ++ x)) =
        "' || echo 1 > '".data ++ x := by
    intro x
    rw [← List.append_assoc, ← List.append_assoc]
    rfl
  have hd : (fzyCommand fifoIn fifoOut fifoRet).data =
      "fzy --lines 50".data ++ (" $* ".data ++ ("< '".data ++ (fifoIn.data ++
        ("'".data ++ (" ".data ++ ("> '".data ++ (fifoOut.data ++
        ("' 2>&1".data ++ (" ".data ++ ("&& echo 0 > '".data ++
        (fifoRet.data ++ ("'".data ++ (" ".data ++ ("|| echo 1 > '".data ++
        (fifoRet.data ++ "'".data))))))))))))))) := by
    rw [m1, m2, m3, m4]
    simp [fzyCommand, String.data_append, List.append_assoc]
  refine ⟨?_, ?_, ?_, ?_, ?_, ?_⟩
  · simp [fzyCommand, String.data_append, List.append_assoc]
  · exact ⟨_, hd.symm⟩
  · refine ⟨"fzy --lines 50".data ++ " $* ".data,
      " ".data ++ ("> '".data ++ (fifoOut.data ++ ("' 2>&1".data ++
        (" ".data ++ ("&& echo 0 > '".data ++ (fifoRet.data ++ ("'".data ++
        (" ".data ++ ("|| echo 1 > '".data ++ (fifoRet.data ++
        "'".data)))))))))), ?_⟩
    rw [hd]
    simp [List.append_assoc]
  · refine ⟨"fzy --lines 50".data ++ (" $* ".data ++ ("< '".data ++
      (fifoIn.data ++ ("'".data ++ " ".data)))),
      " ".data ++ ("&& echo 0 > '".data ++ (fifoRet.data ++ ("'".data ++
        (" ".data ++ ("|| echo 1 > '".data ++ (fifoRet.data ++
        "'".data)))))), ?_⟩
    rw [hd]
    simp [List.append_assoc]
  · refine ⟨"fzy --lines 50".data ++ (" $* ".data ++ ("< '".data ++
      (fifoIn.data ++ ("'".data ++ (" ".data ++ ("> '".data ++
      (fifoOut.data ++ ("' 2>&1".data ++ " ".data)))))))),
      " ".data ++ ("|| echo 1 > '".data ++ (fifoRet.data ++ "'".data)), ?_⟩
    rw [hd]
    simp [List.append_assoc]
  · refine ⟨"fzy --lines 50".data ++ (" $* ".data ++ ("< '".data ++
      (fifoIn.data ++ ("'".data ++ (" ".data ++ ("> '".data ++
      (fifoOut.data ++ ("' 2>&1".data ++ (" ".data ++ ("&& echo 0 > '".data ++
      (fifoRet.data ++ ("'".data ++ " ".data)))))))))))),
      ([] : List Char), ?_⟩
    rw [hd]
    simp [List.append_assoc]

/-- C6: if the `TMUX` environment variable is absent, the driver fails at
startup with the missing-environment error and the generic non-zero status
1, before performing any external action — no temporary directory, no
FIFO, no subprocess — and with nothing on the diagnostic log. -/
theorem missing_tmux_env_aborts_at_startup (w : World)
    (h : w.tmuxVar = none) :
    (driver w).outcome = Outcome.failure "TMUX variable not found" ∧
    mainExitCode (driver w).outcome = 1 ∧
    (driver w).effects = [] ∧
    (driver w).stderrLog = [] := by
  simp [driver, h, mainExitCode]

/-- Witness for C6 at a concrete world with no `TMUX` variable. -/
theorem missing_tmux_env_aborts_at_startup_witness :
    (driver { testWorld with tmuxVar := none }).outcome =
      Outcome.failure "TMUX variable not found" ∧
    mainExitCode (driver { testWorld with tmuxVar := none }).outcome = 1 ∧
    (driver { testWorld with tmuxVar := none }).effects = [] ∧
    (driver { testWorld with tmuxVar := none }).stderrLog = [] :=
  missing_tmux_env_aborts_at_startup { testWorld with tmuxVar := none } rfl

/-- C7 fails on the code: the driver ignores its positional command-line
arguments entirely — `main` never reads `env::args`, so the whole run
(outcome, diagnostics, every external action including the pane command
handed to tmux) is identical for any two argument lists.  The `$*` inside
the pane command string is expanded by the pane's shell, which receives no
positional parameters, so no caller-supplied argument ever reaches the
picker. -/
theorem driver_ignores_positional_arguments (w : World)
    (a b : List String) :
    driver { w with args := a } = driver { w with args := b } := rfl

/-- C8: the tmux subprocess is invoked with a cleared environment holding
only the sanitized session token, its own standard input, output and error
all null (not the driver's streams), and an argument list that disables
pane-output synchronization and remain-on-exit before the split-window
request carrying the constructed command. -/
theorem tmux_invocation_sanitized (w : World) (raw : List Nat)
    (h1 : w.tmuxVar = some raw) (h2 : w.tmpDirOk = true)
    (h3 : w.fifoInOk = true) (h4 : w.fifoOutOk = true)
    (h5 : w.fifoRetOk = true) (h6 : w.spawnOk = true)
    (h7 : w.openInOk = true) (h8 : w.openOutOk = true)
    (h9 : w.outCopyOk = true) (h10 : w.openRetOk = true)
    (h11 : w.retReadOk = true) :
    Effect.spawnTmux (paneInvocation w.tmpDir raw) ∈ (driver w).effects ∧
    (paneInvocation w.tmpDir raw).program = "tmux" ∧
    (paneInvocation w.tmpDir raw).envCleared = true ∧
    (paneInvocation w.tmpDir raw).env = [("TMUX", filter_tmux raw)] ∧
    (paneInvocation w.tmpDir raw).stdinNull = true ∧
    (paneInvocation w.tmpDir raw).stdoutNull = true ∧
    (paneInvocation w.tmpDir raw).stderrNull = true ∧
    (paneInvocation w.tmpDir raw).args =
      ["set-window-option", "synchronize-panes", "off", ";",
       "set-window-option", "remain-on-exit", "off", ";",
       "split-window",
       fzyCommand (w.tmpDir ++ "/in") (w.tmpDir ++ "/out")
         (w.tmpDir ++ "/ret")] := by
  refine ⟨?_, rfl, rfl, rfl, rfl, rfl, rfl, rfl⟩
  simp [driver, h1, h2, h3, h4, h5, h6, h7, h8, h9, h10, h11,
    paneInvocation]

/-- Witness for C8 at the all-successful concrete world. -/
theorem tmux_invocation_sanitized_witness :
    Effect.spawnTmux (paneInvocation "/t" [104, 105]) ∈
      (driver testWorld).effects ∧
    (paneInvocation "/t" [104, 105]).envCleared = true ∧
    (paneInvocation "/t" [104, 105]).env = [("TMUX", [104, 105])] ∧
    (paneInvocation "/t" [104, 105]).stdinNull = true ∧
    (paneInvocation "/t" [104, 105]).args =
      ["set-window-option", "synchronize-panes", "off", ";",
       "set-window-option", "remain-on-exit", "off", ";",
       "split-window", fzyCommand "/t/in" "/t/out" "/t/ret"] := by
  have h := tmux_invocation_sanitized testWorld [104, 105]
    rfl rfl rfl rfl rfl rfl rfl rfl rfl rfl rfl
  exact ⟨h.1, h.2.2.1, h.2.2.2.1, h.2.2.2.2.1, h.2.2.2.2.2.2.2⟩
